import Mathlib

/-!
Shallow embedding of the user-authentication service in
`0x03-user_authentication_service/auth.py`.

The `Auth` class methods are embedded as pure state-passing functions over
an explicit store state.  The store itself (`db.py` / `user.py`, the `DB`
class and the `User` SQLAlchemy model) is not part of the sources; its
interface is modelled from the specification (§3, §6): records keyed by a
store-assigned id, exact-match lookup by email / session_id / reset_token
failing with `NoResultFound` when nothing matches, insertion via `add_user`,
and partial update via `update_user`.

Randomness (bcrypt salts, `uuid4`) is modelled by a fresh-value counter
threaded through the state; bcrypt hashing is modelled by a pair of the
password and the salt, with `checkpw` comparing the embedded password.
-/

set_option autoImplicit false

namespace AuthService

/-- Result of `bcrypt.hashpw(password, salt)`: an opaque value determined by
the password and the salt, from which `checkpw` can recover whether a
candidate password matches. -/
structure HashedPassword where
  pwd : String
  salt : Nat
deriving DecidableEq, Repr

/-- Model of `bcrypt.hashpw(password.encode(), salt)`. -/
def hashpw (password : String) (salt : Nat) : HashedPassword :=
  ⟨password, salt⟩

/-- Model of `bcrypt.checkpw(password.encode(), hashed)`: true exactly when
the candidate password is the one the hash was computed from. -/
def checkpw (password : String) (h : HashedPassword) : Bool :=
  decide (password = h.pwd)

/-- Modelled from the spec (§3): one persisted `User` record (`user.py` is
not among the sources).  `id` is store-assigned; `session_id` and
`reset_token` are nullable strings. -/
structure User where
  id : Nat
  email : String
  hashed_password : HashedPassword
  session_id : Option String
  reset_token : Option String
deriving DecidableEq, Repr

/-- Errors the store interface can signal: `noResultFound` is SQLAlchemy's
`NoResultFound` on a zero-match lookup; `otherError` stands for any other
store-internal failure (e.g. a connectivity error), carrying its detail. -/
inductive DBErr where
  | noResultFound
  | otherError (msg : String)
deriving DecidableEq, Repr

/-- Errors surfaced by the `Auth` methods: `valueError` is Python's
`ValueError` (raised both for the registration conflict and for the generic
invalid-value condition); `dbError` is a store error that the method did not
catch and that therefore propagates to the caller. -/
inductive AuthErr where
  | valueError
  | dbError (e : DBErr)
deriving DecidableEq, Repr

/-- Modelled from the spec (§6): the user store, a list of records plus the
next store-assigned id (ids start at 1, as SQLAlchemy autoincrement does). -/
structure DB where
  users : List User
  next_id : Nat
deriving DecidableEq, Repr

/-- Modelled from the spec (§6): `find_user_by(email=email)` — exact-match
lookup, `NoResultFound` when zero rows match. -/
def find_user_by_email (db : DB) (email : String) : Except DBErr User :=
  match db.users.find? (fun u => decide (u.email = email)) with
  | some u => .ok u
  | none => .error .noResultFound

/-- Modelled from the spec (§6): `find_user_by(session_id=session_id)`. -/
def find_user_by_session_id (db : DB) (sid : String) : Except DBErr User :=
  match db.users.find? (fun u => decide (u.session_id = some sid)) with
  | some u => .ok u
  | none => .error .noResultFound

/-- Modelled from the spec (§6): `find_user_by(reset_token=reset_token)`. -/
def find_user_by_reset_token (db : DB) (tok : String) : Except DBErr User :=
  match db.users.find? (fun u => decide (u.reset_token = some tok)) with
  | some u => .ok u
  | none => .error .noResultFound

/-- Modelled from the spec (§6): `add_user(email, hashed_password)` inserts
a new record with a fresh store-assigned id and null `session_id` and
`reset_token`, and returns it. -/
def add_user (db : DB) (email : String) (h : HashedPassword) : User × DB :=
  let user : User := ⟨db.next_id, email, h, none, none⟩
  (user, ⟨db.users ++ [user], db.next_id + 1⟩)

/-- Modelled from the spec (§6): `update_user(user_id, session_id=...)` —
partial update of the `session_id` field of the record with the given id,
failing with `NoResultFound` when no record has that id. -/
def update_user_session (db : DB) (uid : Nat) (sid : Option String) :
    Except DBErr DB :=
  if db.users.any (fun u => decide (u.id = uid)) then
    .ok ⟨db.users.map (fun u =>
          if u.id = uid then { u with session_id := sid } else u),
         db.next_id⟩
  else .error .noResultFound

/-- Modelled from the spec (§3, §6): assigning to an attribute of a user
object returned by a lookup mutates the record the store owns (the store
session holds the very record the lookup returned), here the `reset_token`
field.  This is how `get_reset_password_token` and `update_password` write
in the source. -/
def set_user_reset_token (db : DB) (uid : Nat) (tok : Option String) : DB :=
  ⟨db.users.map (fun u =>
      if u.id = uid then { u with reset_token := tok } else u),
   db.next_id⟩

/-- Modelled from the spec (§3, §6): in-session attribute assignment of the
`hashed_password` field, as performed by `update_password`. -/
def set_user_hashed_password (db : DB) (uid : Nat) (h : HashedPassword) : DB :=
  ⟨db.users.map (fun u =>
      if u.id = uid then { u with hashed_password := h } else u),
   db.next_id⟩

/-- The state an `Auth` instance acts on: its `DB` handle plus the
fresh-value supply standing for the randomness of `uuid4` and
`bcrypt.gensalt`. -/
structure AuthState where
  db : DB
  counter : Nat
deriving DecidableEq, Repr

/-- Consume one fresh value. -/
def bump (s : AuthState) : AuthState :=
  { s with counter := s.counter + 1 }

/-- The string `str(uuid4())` returns for the n-th draw of the fresh-value
supply.  Such strings are never empty. -/
def uuid_string (n : Nat) : String :=
  "uuid-" ++ toString n

/-- `_generate_uuid` from auth.py: returns a fresh UUID string and consumes
one fresh value. -/
def generate_uuid (s : AuthState) : String × AuthState :=
  (uuid_string s.counter, bump s)

/-- `_hash_password` from auth.py: salted hash of the input password, with
the salt drawn from the fresh-value supply (`bcrypt.gensalt()`). -/
def hash_password (s : AuthState) (password : String) :
    HashedPassword × AuthState :=
  (hashpw password s.counter, bump s)

/-- `Auth.register_user` from auth.py.  The method looks the email up; on a
hit it raises `ValueError` (not caught by the surrounding
`except NoResultFound`); on `NoResultFound` it hashes the password and
inserts a new user; any other lookup error propagates. -/
def register_user (s : AuthState) (email password : String) :
    Except AuthErr User × AuthState :=
  match find_user_by_email s.db email with
  | .ok _ => (.error .valueError, s)
  | .error .noResultFound =>
      let (h, s1) := hash_password s password
      let (user, db1) := add_user s1.db email h
      (.ok user, { s1 with db := db1 })
  | .error e => (.error (.dbError e), s)

/-- The body of `Auth.valid_login` after the email lookup, as a function of
the lookup's outcome: the `except Exception` clause turns every failure into
`False`, and on success `bcrypt.checkpw` decides the answer. -/
def valid_login_core (res : Except DBErr User) (password : String) : Bool :=
  match res with
  | .ok user => checkpw password user.hashed_password
  | .error _ => false

/-- `Auth.valid_login` from auth.py. -/
def valid_login (s : AuthState) (email password : String) : Bool :=
  valid_login_core (find_user_by_email s.db email) password

/-- The body of `Auth.create_session` as a function of the email lookup's
outcome: on success it draws a fresh UUID, stores it as the user's
`session_id` via `update_user`, and returns it; the `except Exception`
clause turns any failure — of the lookup or of the update — into `None`. -/
def create_session_core (s : AuthState) (res : Except DBErr User) :
    Option String × AuthState :=
  match res with
  | .ok user =>
      let (sid, s1) := generate_uuid s
      match update_user_session s1.db user.id (some sid) with
      | .ok db1 => (some sid, { s1 with db := db1 })
      | .error _ => (none, s1)
  | .error _ => (none, s)

/-- `Auth.create_session` from auth.py. -/
def create_session (s : AuthState) (email : String) :
    Option String × AuthState :=
  create_session_core s (find_user_by_email s.db email)

/-- The tail of `Auth.get_user_from_session_id` after the falsy check, as a
function of the session-id lookup's outcome: the `except Exception` clause
turns every failure into `None`. -/
def lookup_to_option (res : Except DBErr User) : Option User :=
  match res with
  | .ok u => some u
  | .error _ => none

/-- `Auth.get_user_from_session_id` from auth.py, instrumented with the
number of store lookups it performs.  A falsy `session_id` — Python `None`
or the empty string — returns `None` before any store access. -/
def get_user_from_session_id_traced (db : DB) (session_id : Option String) :
    Option User × Nat :=
  match session_id with
  | none => (none, 0)
  | some sid =>
      if sid = "" then (none, 0)
      else (lookup_to_option (find_user_by_session_id db sid), 1)

/-- `Auth.get_user_from_session_id` from auth.py: the returned value. -/
def get_user_from_session_id (db : DB) (session_id : Option String) :
    Option User :=
  (get_user_from_session_id_traced db session_id).1

/-- `Auth.destroy_session` from auth.py: a falsy `user_id` (Python `0` or
`None`, here `0`) is a no-op; otherwise the user's `session_id` is set to
`None` through `update_user`, whose failure is not handled and would
propagate. -/
def destroy_session (s : AuthState) (user_id : Nat) :
    Except DBErr Unit × AuthState :=
  if user_id = 0 then (.ok (), s)
  else
    match update_user_session s.db user_id none with
    | .ok db1 => (.ok (), { s with db := db1 })
    | .error e => (.error e, s)

/-- The body of `Auth.get_reset_password_token` as a function of the email
lookup's outcome: on success it draws a fresh UUID, assigns it to the user's
`reset_token` attribute and returns it; `except NoResultFound` converts only
the not-found failure to a bare `ValueError`, any other lookup error
propagates. -/
def get_reset_password_token_core (s : AuthState) (res : Except DBErr User) :
    Except AuthErr String × AuthState :=
  match res with
  | .ok user =>
      let (tok, s1) := generate_uuid s
      (.ok tok, { s1 with db := set_user_reset_token s1.db user.id (some tok) })
  | .error .noResultFound => (.error .valueError, s)
  | .error e => (.error (.dbError e), s)

/-- `Auth.get_reset_password_token` from auth.py. -/
def get_reset_password_token (s : AuthState) (email : String) :
    Except AuthErr String × AuthState :=
  get_reset_password_token_core s (find_user_by_email s.db email)

/-- The body of `Auth.update_password` as a function of the reset-token
lookup's outcome: on success it hashes the new password, assigns it to the
user's `hashed_password` attribute and clears the `reset_token` attribute;
`except NoResultFound` converts only the not-found failure to a bare
`ValueError`, any other lookup error propagates. -/
def update_password_core (s : AuthState) (res : Except DBErr User)
    (password : String) : Except AuthErr Unit × AuthState :=
  match res with
  | .ok user =>
      let (h, s1) := hash_password s password
      let db1 := set_user_hashed_password s1.db user.id h
      let db2 := set_user_reset_token db1 user.id none
      (.ok (), { s1 with db := db2 })
  | .error .noResultFound => (.error .valueError, s)
  | .error e => (.error (.dbError e), s)

/-- `Auth.update_password` from auth.py. -/
def update_password (s : AuthState) (reset_token password : String) :
    Except AuthErr Unit × AuthState :=
  update_password_core s (find_user_by_reset_token s.db reset_token) password

/-! ### Concrete sample states used by the witness theorems -/

/-- A sample stored hash. -/
def sampleHash : HashedPassword := hashpw "secret" 0

/-- A registered user with no session and no reset token. -/
def sampleUser : User := ⟨1, "alice", sampleHash, none, none⟩

/-- A one-user store. -/
def sampleDB : DB := ⟨[sampleUser], 2⟩

/-- An `Auth` state over `sampleDB`. -/
def sampleState : AuthState := ⟨sampleDB, 5⟩

/-- A registered user with an active session and a pending reset token. -/
def tokenUser : User := ⟨1, "alice", sampleHash, some "sess-1", some "tok-1"⟩

/-- A one-user store whose user holds a session and a reset token. -/
def tokenDB : DB := ⟨[tokenUser], 2⟩

/-- An `Auth` state over `tokenDB`. -/
def tokenState : AuthState := ⟨tokenDB, 5⟩

/-- A user whose id does not occur in `sampleDB`. -/
def ghostUser : User := ⟨99, "ghost", sampleHash, none, none⟩

/-! ### Helper lemmas -/

/-- A UUID string is never empty, hence never falsy. -/
theorem uuid_string_ne_empty (n : Nat) : uuid_string n ≠ "" := by
  intro h
  have h2 : (uuid_string n).length = 0 := by rw [h]; rfl
  rw [uuid_string, String.length_append] at h2
  have h3 : ("uuid-" : String).length = 5 := by decide
  omega

/-- When no stored user has the email, the lookup signals not-found. -/
theorem find_user_by_email_eq_error {db : DB} {email : String}
    (h : ∀ v ∈ db.users, v.email ≠ email) :
    find_user_by_email db email = .error .noResultFound := by
  unfold find_user_by_email
  have hf : db.users.find? (fun u => decide (u.email = email)) = none := by
    rw [List.find?_eq_none]
    intro x hx
    simp [h x hx]
  rw [hf]

/-- A successful email lookup returns a stored user with that email. -/
theorem find_user_by_email_ok {db : DB} {email : String} {u : User}
    (h : find_user_by_email db email = .ok u) :
    u ∈ db.users ∧ u.email = email := by
  unfold find_user_by_email at h
  cases hf : db.users.find? (fun v => decide (v.email = email)) with
  | none => rw [hf] at h; cases h
  | some w =>
      rw [hf] at h
      cases h
      exact ⟨List.mem_of_find?_eq_some hf, by simpa using List.find?_some hf⟩

/-- A successful reset-token lookup returns a stored user with that token. -/
theorem find_user_by_reset_token_ok {db : DB} {tok : String} {u : User}
    (h : find_user_by_reset_token db tok = .ok u) :
    u ∈ db.users ∧ u.reset_token = some tok := by
  unfold find_user_by_reset_token at h
  cases hf : db.users.find? (fun v => decide (v.reset_token = some tok)) with
  | none => rw [hf] at h; cases h
  | some w =>
      rw [hf] at h
      cases h
      exact ⟨List.mem_of_find?_eq_some hf, by simpa using List.find?_some hf⟩

/-- `find?` returns the designated element when it is the unique element
satisfying the predicate and some element satisfies it. -/
theorem find_first_of_unique {l : List User} {p : User → Bool} {w : User}
    (h1 : ∀ v ∈ l, p v = true → v = w) (h2 : ∃ v ∈ l, p v = true) :
    l.find? p = some w := by
  induction l with
  | nil => rcases h2 with ⟨v, hv, _⟩; cases hv
  | cons a t ih =>
      by_cases hp : p a = true
      · rw [List.find?_cons_of_pos _ hp, h1 a (List.mem_cons_self a t) hp]
      · have hp' : p a = false := by
          cases hpa : p a with
          | false => rfl
          | true => exact absurd hpa hp
        rw [List.find?_cons_of_neg _ (by simp [hp'])]
        apply ih
        · exact fun v hv hpv => h1 v (List.mem_cons_of_mem a hv) hpv
        · rcases h2 with ⟨v, hv, hpv⟩
          rcases List.mem_cons.mp hv with rfl | hvt
          · exact absurd hpv hp
          · exact ⟨v, hvt, hpv⟩

/-- Exact result of a successful registration: the email is free, so the
store gains exactly one user, with a fresh id, the salted hash of the
password, and null `session_id` and `reset_token`. -/
theorem register_user_success_eq (s : AuthState) (email password : String)
    (h : ∀ v ∈ s.db.users, v.email ≠ email) :
    register_user s email password =
      (.ok ⟨s.db.next_id, email, hashpw password s.counter, none, none⟩,
       ⟨⟨s.db.users ++ [⟨s.db.next_id, email, hashpw password s.counter, none, none⟩],
         s.db.next_id + 1⟩, s.counter + 1⟩) := by
  unfold register_user
  rw [find_user_by_email_eq_error h]
  rfl

/-- Exact result of `create_session` on an email the lookup resolves to a
stored user: a fresh UUID is drawn, written into that user's `session_id`
through `update_user`, and returned. -/
theorem create_session_success_eq (s : AuthState) (email : String) (u : User)
    (hfind : find_user_by_email s.db email = .ok u) :
    create_session s email =
      (some (uuid_string s.counter),
       ⟨⟨s.db.users.map (fun v =>
            if v.id = u.id then { v with session_id := some (uuid_string s.counter) }
            else v),
         s.db.next_id⟩, s.counter + 1⟩) := by
  have hmem := (find_user_by_email_ok hfind).1
  unfold create_session
  rw [hfind]
  unfold create_session_core generate_uuid bump
  have hany : s.db.users.any (fun v => decide (v.id = u.id)) = true :=
    List.any_eq_true.mpr ⟨u, hmem, by simp⟩
  simp only [update_user_session, hany, if_true]

/-! ### Claim theorems -/

/-- C1: for every email and password on which registration succeeds
(no stored user has the email), `register_user(email, password)` followed by
`valid_login(email, password)` returns true. -/
theorem register_user_then_valid_login (s : AuthState) (email password : String)
    (h : ∀ v ∈ s.db.users, v.email ≠ email) :
    valid_login (register_user s email password).2 email password = true := by
  rw [register_user_success_eq s email password h]
  unfold valid_login valid_login_core find_user_by_email
  have hnone : s.db.users.find? (fun u => decide (u.email = email)) = none := by
    rw [List.find?_eq_none]
    intro x hx
    simp [h x hx]
  rw [List.find?_append, hnone, Option.none_or,
      List.find?_cons_of_pos _ (by simp)]
  simp [checkpw, hashpw]

/-- C1 witness: registering a fresh email on a concrete populated store and
then validating the same credentials yields true. -/
theorem register_user_then_valid_login_witness :
    valid_login (register_user sampleState "bob" "pw123").2 "bob" "pw123" = true :=
  register_user_then_valid_login sampleState "bob" "pw123" (by decide)

/-- C3: registering an email that already exists fails with the
`AlreadyExists` condition (a `ValueError`) and leaves the store completely
unchanged; registering a free email inserts exactly one new user whose
`session_id` and `reset_token` are null. -/
theorem register_user_conflict_and_insert (s : AuthState) (email password : String) :
    ((∃ v ∈ s.db.users, v.email = email) →
        register_user s email password = (.error .valueError, s))
    ∧ ((∀ v ∈ s.db.users, v.email ≠ email) →
        register_user s email password =
          (.ok ⟨s.db.next_id, email, hashpw password s.counter, none, none⟩,
           ⟨⟨s.db.users ++
               [⟨s.db.next_id, email, hashpw password s.counter, none, none⟩],
             s.db.next_id + 1⟩, s.counter + 1⟩)) := by
  constructor
  · rintro ⟨v, hv, hve⟩
    have hsome : (s.db.users.find? (fun u => decide (u.email = email))).isSome :=
      List.find?_isSome.mpr ⟨v, hv, by simp [hve]⟩
    rcases Option.isSome_iff_exists.mp hsome with ⟨w, hw⟩
    have hfind : find_user_by_email s.db email = .ok w := by
      unfold find_user_by_email
      rw [hw]
    unfold register_user
    rw [hfind]
  · exact register_user_success_eq s email password

/-- C3 witness: on the concrete one-user store, re-registering the stored
email fails with `ValueError` and returns the store untouched, while a fresh
email appends exactly one user with null session and reset token. -/
theorem register_user_conflict_and_insert_witness :
    register_user sampleState "alice" "pw" = (.error .valueError, sampleState)
    ∧ register_user sampleState "bob" "pw" =
        (.ok ⟨2, "bob", hashpw "pw" 5, none, none⟩,
         ⟨⟨[sampleUser, ⟨2, "bob", hashpw "pw" 5, none, none⟩], 3⟩, 6⟩) :=
  ⟨(register_user_conflict_and_insert sampleState "alice" "pw").1
      ⟨sampleUser, by decide, by decide⟩,
   (register_user_conflict_and_insert sampleState "bob" "pw").2 (by decide)⟩

/-- C10: a falsy `session_id` — Python `None` or the empty string — makes
`get_user_from_session_id` return null immediately, with zero store lookups,
whatever the store holds. -/
theorem falsy_session_id_no_lookup (db : DB) :
    get_user_from_session_id_traced db none = (none, 0)
    ∧ get_user_from_session_id_traced db (some "") = (none, 0)
    ∧ get_user_from_session_id db none = none
    ∧ get_user_from_session_id db (some "") = none := by
  refine ⟨rfl, ?_, rfl, ?_⟩ <;>
    simp [get_user_from_session_id, get_user_from_session_id_traced]

/-- C9 counterexample: a store-internal failure (a connectivity error) in
the lookup of `get_reset_password_token` is not converted to the generic
invalid-value condition — it propagates with its detail, so its observable
outcome differs from a simple not-found. -/
theorem store_error_not_converted_counterexample :
    (get_reset_password_token_core sampleState
        (.error (.otherError "connection refused"))).1 ≠ .error .valueError
    ∧ (get_reset_password_token_core sampleState
          (.error (.otherError "connection refused"))).1 ≠
        (get_reset_password_token_core sampleState (.error .noResultFound)).1
    ∧ (update_password_core sampleState
          (.error (.otherError "connection refused")) "pw").1 ≠
        .error .valueError := by
  refine ⟨?_, ?_, ?_⟩ <;>
    simp [get_reset_password_token_core, update_password_core]

/-- C9 amended: in `get_reset_password_token` and `update_password`, only
the store's not-found failure is converted to the generic invalid-value
condition and re-raised; any other store-internal failure (e.g. a
connectivity error) propagates unchanged with its detail. -/
theorem only_not_found_converted_to_value_error (s : AuthState) (password : String) :
    ((get_reset_password_token_core s (.error .noResultFound)).1 = .error .valueError)
    ∧ (∀ msg, (get_reset_password_token_core s (.error (.otherError msg))).1 =
        .error (.dbError (.otherError msg)))
    ∧ ((update_password_core s (.error .noResultFound) password).1 = .error .valueError)
    ∧ (∀ msg, (update_password_core s (.error (.otherError msg)) password).1 =
        .error (.dbError (.otherError msg))) :=
  ⟨rfl, fun _ => rfl, rfl, fun _ => rfl⟩

/-- C4: every non-success case collapses to false/null and never raises
(the functions are total with `Bool`/`Option` results): `valid_login` is
false on any lookup failure and on a failed password check; `create_session`
is null on any lookup failure and on any update failure;
`get_user_from_session_id` is null on any lookup failure. -/
theorem fail_closed_login_session_lookup :
    (∀ (e : DBErr) (password : String),
        valid_login_core (.error e) password = false)
    ∧ (∀ (u : User) (password : String),
        checkpw password u.hashed_password = false →
        valid_login_core (.ok u) password = false)
    ∧ (∀ (s : AuthState) (e : DBErr),
        create_session_core s (.error e) = (none, s))
    ∧ (∀ (s : AuthState) (u : User) (e : DBErr),
        update_user_session (bump s).db u.id (some (uuid_string s.counter)) =
          .error e →
        (create_session_core s (.ok u)).1 = none)
    ∧ (∀ (e : DBErr), lookup_to_option (.error e) = none) := by
  refine ⟨fun e _ => rfl, ?_, fun s e => rfl, ?_, fun e => rfl⟩
  · intro u password h
    simpa [valid_login_core] using h
  · intro s u e h
    simp only [create_session_core, generate_uuid]
    rw [h]

/-- C4 witness: the fail-closed collapses observed at concrete inputs —
a failed lookup and a wrong password in `valid_login`, a store failure and a
failed update in `create_session`, and a failed lookup in
`get_user_from_session_id`. -/
theorem fail_closed_login_session_lookup_witness :
    valid_login_core (.error (.otherError "db down")) "pw" = false
    ∧ valid_login_core (.ok sampleUser) "wrong" = false
    ∧ create_session_core sampleState (.error (.otherError "db down")) =
        (none, sampleState)
    ∧ (create_session_core sampleState (.ok ghostUser)).1 = none
    ∧ lookup_to_option (.error .noResultFound) = none :=
  ⟨fail_closed_login_session_lookup.1 (.otherError "db down") "pw",
   fail_closed_login_session_lookup.2.1 sampleUser "wrong" (by decide),
   fail_closed_login_session_lookup.2.2.1 sampleState (.otherError "db down"),
   fail_closed_login_session_lookup.2.2.2.1 sampleState ghostUser
     .noResultFound (by rfl),
   fail_closed_login_session_lookup.2.2.2.2 .noResultFound⟩

/-- C5: on an email the lookup resolves to a stored user, `create_session`
draws a fresh session identifier, persists it onto that user's record
(overwriting any prior `session_id`) and returns it. -/
theorem create_session_persists_fresh_id (s : AuthState) (email : String)
    (u : User) (hfind : find_user_by_email s.db email = .ok u) :
    create_session s email =
      (some (uuid_string s.counter),
       ⟨⟨s.db.users.map (fun v =>
            if v.id = u.id then { v with session_id := some (uuid_string s.counter) }
            else v),
         s.db.next_id⟩, s.counter + 1⟩) :=
  create_session_success_eq s email u hfind

/-- C5 witness: on the concrete store, `create_session` returns the next
fresh UUID and overwrites the user's previous session id with it. -/
theorem create_session_persists_fresh_id_witness :
    create_session tokenState "alice" =
      (some (uuid_string 5),
       ⟨⟨[⟨1, "alice", sampleHash, some (uuid_string 5), some "tok-1"⟩], 2⟩, 6⟩) :=
  create_session_persists_fresh_id tokenState "alice" tokenUser rfl

/-- C6: for a registered user (with unique id and a fresh generated
identifier, as the store and generator guarantee), `create_session` returns
a non-null token and `get_user_from_session_id` on that token returns that
same user; `create_session` on an email with no matching user returns
null. -/
theorem session_roundtrip_and_unknown_email (s : AuthState) (email : String)
    (u : User)
    (hfind : find_user_by_email s.db email = .ok u)
    (hids : ∀ v ∈ s.db.users, v.id = u.id → v = u)
    (hfresh : ∀ v ∈ s.db.users, v.session_id ≠ some (uuid_string s.counter)) :
    ((create_session s email).1 = some (uuid_string s.counter)
     ∧ get_user_from_session_id (create_session s email).2.db
         (some (uuid_string s.counter)) =
       some { u with session_id := some (uuid_string s.counter) })
    ∧ ∀ (s2 : AuthState) (email2 : String),
        (∀ v ∈ s2.db.users, v.email ≠ email2) →
        (create_session s2 email2).1 = none := by
  have hmem := (find_user_by_email_ok hfind).1
  constructor
  · rw [create_session_success_eq s email u hfind]
    refine ⟨rfl, ?_⟩
    have hlook : find_user_by_session_id
        ⟨s.db.users.map (fun v =>
            if v.id = u.id then { v with session_id := some (uuid_string s.counter) }
            else v), s.db.next_id⟩ (uuid_string s.counter) =
        .ok { u with session_id := some (uuid_string s.counter) } := by
      unfold find_user_by_session_id
      rw [find_first_of_unique ?h1 ?h2]
      case h1 =>
        intro v' hv' hp
        rcases List.mem_map.mp hv' with ⟨v, hv, rfl⟩
        by_cases hcase : v.id = u.id
        · rw [hids v hv hcase, if_pos rfl]
        · rw [if_neg hcase] at hp ⊢
          exact absurd (of_decide_eq_true hp) (hfresh v hv)
      case h2 =>
        refine ⟨{ u with session_id := some (uuid_string s.counter) },
          List.mem_map.mpr ⟨u, hmem, by rw [if_pos rfl]⟩, by simp⟩
    unfold get_user_from_session_id get_user_from_session_id_traced
    dsimp only
    rw [if_neg (uuid_string_ne_empty s.counter), hlook]
    rfl
  · intro s2 email2 h2
    unfold create_session
    rw [find_user_by_email_eq_error h2]
    rfl

/-- C6 witness: on the concrete store the roundtrip holds — the session
created for the stored user is recovered by `get_user_from_session_id` —
and an unknown email yields null. -/
theorem session_roundtrip_and_unknown_email_witness :
    (((create_session tokenState "alice").1 = some (uuid_string 5)
      ∧ get_user_from_session_id (create_session tokenState "alice").2.db
          (some (uuid_string 5)) =
        some ⟨1, "alice", sampleHash, some (uuid_string 5), some "tok-1"⟩)
     ∧ (create_session tokenState "nobody").1 = none) :=
  ⟨(session_roundtrip_and_unknown_email tokenState "alice" tokenUser rfl
      (by decide) (by decide)).1,
   (session_roundtrip_and_unknown_email tokenState "alice" tokenUser rfl
      (by decide) (by decide)).2 tokenState "nobody" (by decide)⟩

/-- C7: for a stored user with an active session token (unique, as the
store guarantees), `destroy_session(user_id)` clears only that user's
`session_id` — every other field of that user and every other user's record
is unchanged, as the map form shows — and `get_user_from_session_id` on the
old token then returns null. -/
theorem destroy_session_frame (s : AuthState) (u : User) (t : String)
    (hmem : u ∈ s.db.users)
    (hid : u.id ≠ 0)
    (hsess : u.session_id = some t)
    (huniq : ∀ v ∈ s.db.users, v.session_id = some t → v.id = u.id) :
    destroy_session s u.id =
      (.ok (), ⟨⟨s.db.users.map (fun v =>
          if v.id = u.id then { v with session_id := none } else v),
        s.db.next_id⟩, s.counter⟩)
    ∧ get_user_from_session_id (destroy_session s u.id).2.db (some t) = none := by
  have hany : s.db.users.any (fun v => decide (v.id = u.id)) = true :=
    List.any_eq_true.mpr ⟨u, hmem, by simp⟩
  have hstep : destroy_session s u.id =
      (.ok (), ⟨⟨s.db.users.map (fun v =>
          if v.id = u.id then { v with session_id := none } else v),
        s.db.next_id⟩, s.counter⟩) := by
    unfold destroy_session
    rw [if_neg hid]
    simp only [update_user_session, hany, if_true]
  refine ⟨hstep, ?_⟩
  rw [hstep]
  by_cases ht : t = ""
  · subst ht
    simp [get_user_from_session_id, get_user_from_session_id_traced]
  · have hnone : find_user_by_session_id
        ⟨s.db.users.map (fun v =>
            if v.id = u.id then { v with session_id := none } else v),
          s.db.next_id⟩ t = .error .noResultFound := by
      unfold find_user_by_session_id
      have hfnone : (s.db.users.map (fun v =>
          if v.id = u.id then { v with session_id := none } else v)).find?
            (fun v => decide (v.session_id = some t)) = none := by
        rw [List.find?_eq_none]
        intro x hx
        rcases List.mem_map.mp hx with ⟨v, hv, rfl⟩
        by_cases hcase : v.id = u.id
        · rw [if_pos hcase]
          simp
        · rw [if_neg hcase]
          simp only [decide_eq_true_eq]
          exact fun hst => hcase (huniq v hv hst)
      rw [hfnone]
    unfold get_user_from_session_id get_user_from_session_id_traced
    dsimp only
    rw [if_neg ht, hnone]
    rfl

/-- C7 witness: destroying the concrete user's session clears exactly the
`session_id` field and the old token no longer resolves to a user. -/
theorem destroy_session_frame_witness :
    destroy_session tokenState 1 =
      (.ok (), ⟨⟨[⟨1, "alice", sampleHash, none, some "tok-1"⟩], 2⟩, 5⟩)
    ∧ get_user_from_session_id (destroy_session tokenState 1).2.db
        (some "sess-1") = none :=
  destroy_session_frame tokenState tokenUser "sess-1" (by decide) (by decide)
    rfl (by decide)

/-- C8: on an email the lookup resolves to a stored user,
`get_reset_password_token` draws a fresh reset token, writes it into that
user's record and returns it; on an email with no matching user it fails
with the `UserNotFound` condition, surfaced as the generic `ValueError`. -/
theorem get_reset_password_token_stores_and_returns (s : AuthState)
    (email : String) (u : User)
    (hfind : find_user_by_email s.db email = .ok u) :
    get_reset_password_token s email =
      (.ok (uuid_string s.counter),
       ⟨⟨s.db.users.map (fun v =>
            if v.id = u.id then { v with reset_token := some (uuid_string s.counter) }
            else v),
         s.db.next_id⟩, s.counter + 1⟩)
    ∧ ∀ (s2 : AuthState) (email2 : String),
        (∀ v ∈ s2.db.users, v.email ≠ email2) →
        get_reset_password_token s2 email2 = (.error .valueError, s2) := by
  constructor
  · unfold get_reset_password_token
    rw [hfind]
    rfl
  · intro s2 email2 h2
    unfold get_reset_password_token
    rw [find_user_by_email_eq_error h2]
    rfl

/-- C8 witness: on the concrete store the stored user's `reset_token` is
overwritten with the fresh UUID, which is also returned; an unknown email
fails with `ValueError` and leaves the state untouched. -/
theorem get_reset_password_token_stores_and_returns_witness :
    get_reset_password_token tokenState "alice" =
      (.ok (uuid_string 5),
       ⟨⟨[⟨1, "alice", sampleHash, some "sess-1", some (uuid_string 5)⟩], 2⟩, 6⟩)
    ∧ get_reset_password_token tokenState "nobody" =
        (.error .valueError, tokenState) :=
  ⟨(get_reset_password_token_stores_and_returns tokenState "alice" tokenUser
      rfl).1,
   (get_reset_password_token_stores_and_returns tokenState "alice" tokenUser
      rfl).2 tokenState "nobody" (by decide)⟩

/-- C2: on a reset token the lookup resolves to a stored user (the token
being unique, as the store guarantees), `update_password` succeeds, stores
the salted hash of the new password in that user's `hashed_password`,
clears the user's `reset_token`, and a second `update_password` call with
the same now-stale token fails with the generic `ValueError`. -/
theorem update_password_overwrites_and_clears (s : AuthState)
    (tok password : String) (u : User)
    (hfind : find_user_by_reset_token s.db tok = .ok u)
    (huniq : ∀ v ∈ s.db.users, v.reset_token = some tok → v.id = u.id) :
    (update_password s tok password).1 = .ok ()
    ∧ (∀ v ∈ (update_password s tok password).2.db.users,
        v.id = u.id →
          v.hashed_password = hashpw password s.counter ∧ v.reset_token = none)
    ∧ ∀ p2, (update_password (update_password s tok password).2 tok p2).1 =
        .error .valueError := by
  have hstep : update_password s tok password =
      (.ok (), ⟨set_user_reset_token
          (set_user_hashed_password s.db u.id (hashpw password s.counter))
          u.id none, s.counter + 1⟩) := by
    unfold update_password
    rw [hfind]
    rfl
  refine ⟨by rw [hstep], ?_, ?_⟩
  · rw [hstep]
    simp only [set_user_reset_token, set_user_hashed_password]
    intro v hv hvid
    rcases List.mem_map.mp hv with ⟨w1, hw1, rfl⟩
    rcases List.mem_map.mp hw1 with ⟨w, hw, rfl⟩
    by_cases hcase : w.id = u.id
    · rw [if_pos hcase, if_pos hcase]
      simp
    · rw [if_neg hcase, if_neg hcase] at hvid ⊢
      exact absurd hvid hcase
  · have hnone : find_user_by_reset_token
        (set_user_reset_token
          (set_user_hashed_password s.db u.id (hashpw password s.counter))
          u.id none) tok = .error .noResultFound := by
      unfold find_user_by_reset_token
      simp only [set_user_reset_token, set_user_hashed_password]
      have hfnone : (((s.db.users.map (fun w =>
          if w.id = u.id then { w with hashed_password := hashpw password s.counter }
          else w)).map (fun w =>
          if w.id = u.id then { w with reset_token := none } else w))).find?
            (fun v => decide (v.reset_token = some tok)) = none := by
        rw [List.find?_eq_none]
        intro x hx
        rcases List.mem_map.mp hx with ⟨w1, hw1, rfl⟩
        rcases List.mem_map.mp hw1 with ⟨w, hw, rfl⟩
        by_cases hcase : w.id = u.id
        · rw [if_pos hcase, if_pos hcase]
          simp
        · rw [if_neg hcase, if_neg hcase]
          simp only [decide_eq_true_eq]
          exact fun hst => hcase (huniq w hw hst)
      rw [hfnone]
    intro p2
    rw [hstep]
    unfold update_password
    rw [hnone]
    rfl

/-- C2 witness: on the concrete store the pending token succeeds once —
overwriting the hash and clearing the token — and fails with `ValueError`
when replayed. -/
theorem update_password_overwrites_and_clears_witness :
    (update_password tokenState "tok-1" "newpw").1 = .ok ()
    ∧ (∀ v ∈ (update_password tokenState "tok-1" "newpw").2.db.users,
        v.id = tokenUser.id →
          v.hashed_password = hashpw "newpw" 5 ∧ v.reset_token = none)
    ∧ ∀ p2, (update_password (update_password tokenState "tok-1" "newpw").2
        "tok-1" p2).1 = .error .valueError :=
  update_password_overwrites_and_clears tokenState "tok-1" "newpw" tokenUser
    rfl (by decide)

end AuthService
